import Mathlib

/-!
Verification development for the normalization and recommendation layer of
the riverr backend (src/main.py): the field extractors (get_title,
get_overview, get_year, get_rating, get_runtime, get_poster_url), the genre
aggregator (get_genre), the TMDB resolution helpers
(get_tmdb_genre_from_name, get_tmdb_recomendations) and the composed
recommendation flows (discover_radarr_movies, discover_sonarr_series).

Python JSON-like values are embedded as the inductive type `Val`; lists and
mappings are encoded by explicit cons spines so that structural recursion
and decidable equality are available.  Mapping spines keep insertion order,
exactly as CPython dicts do (Python >= 3.7), which matters for the genre
tie-break.  Fallible Python operations (subscript, membership, iteration)
return `Except PyErr`, where `PyErr` names the Python exception class that
the corresponding operation raises.  Network calls are modeled by explicit
`Except Unit Val` parameters: `Except.error` is any transport/HTTP failure,
`Except.ok j` the decoded JSON body.
-/

/-- JSON-like Python values, with list and dict spines. -/
inductive Val where
  | vNull
  | vBool (b : Bool)
  | vInt (n : Int)
  | vFloat (q : ℚ)
  | vStr (s : String)
  | vNilL
  | vConsL (hd tl : Val)
  | vNilD
  | vConsD (k : String) (v rest : Val)
  deriving DecidableEq, Repr

/-- Build a list value from a Lean list. -/
def vListOf : List Val → Val
  | [] => Val.vNilL
  | x :: xs => Val.vConsL x (vListOf xs)

/-- Build a mapping value from an ordered field list. -/
def vDictOf : List (String × Val) → Val
  | [] => Val.vNilD
  | (k, v) :: fs => Val.vConsD k v (vDictOf fs)

/-- Python exception classes relevant to this layer. -/
inductive PyErr where
  | keyError
  | typeError
  | valueError
  | attributeError
  | httpError
  deriving DecidableEq, Repr

deriving instance DecidableEq for Except

def Val.isDict : Val → Bool
  | Val.vNilD => true
  | Val.vConsD _ _ _ => true
  | _ => false

def Val.isList : Val → Bool
  | Val.vNilL => true
  | Val.vConsL _ _ => true
  | _ => false

def Val.isStr : Val → Bool
  | Val.vStr _ => true
  | _ => false

def Val.isInt : Val → Bool
  | Val.vInt _ => true
  | _ => false

/-- First binding of a key in a mapping spine (CPython dict keys are unique,
so first-match lookup agrees with dict lookup). -/
def dictLookup : Val → String → Option Val
  | Val.vConsD k v rest, key => if k = key then some v else dictLookup rest key
  | _, _ => none

/-- Membership of an element in a list spine. -/
def listHasElem : Val → Val → Bool
  | Val.vConsL x xs, e => x == e || listHasElem xs e
  | _, _ => false

/-- Python subscript `v[key]` for a string key: mapping lookup (KeyError when
the key is absent); on any non-mapping a string subscript is a TypeError. -/
def pySub (v : Val) (key : String) : Except PyErr Val :=
  if v.isDict then
    match dictLookup v key with
    | some x => Except.ok x
    | none => Except.error PyErr.keyError
  else
    Except.error PyErr.typeError

/-- Python membership `key in v` for a string key: key membership for
mappings, element membership for sequences, substring test for strings
(all keys used by the source are non-empty literals), TypeError otherwise. -/
def pyContains (v : Val) (key : String) : Except PyErr Bool :=
  match v with
  | Val.vNilD => Except.ok false
  | Val.vConsD k w rest => Except.ok (dictLookup (Val.vConsD k w rest) key).isSome
  | Val.vNilL => Except.ok false
  | Val.vConsL x xs => Except.ok (listHasElem (Val.vConsL x xs) (Val.vStr key))
  | Val.vStr s => Except.ok (decide (2 ≤ (s.splitOn key).length))
  | _ => Except.error PyErr.typeError

/-- Python iteration `for x in v`: elements of a sequence, keys of a
mapping, characters of a string; TypeError on non-iterables. -/
def pyIter : Val → Except PyErr (List Val)
  | Val.vNilL => Except.ok []
  | Val.vConsL x xs => (pyIter xs).map (fun l => x :: l)
  | Val.vNilD => Except.ok []
  | Val.vConsD k _ rest => (pyIter rest).map (fun l => Val.vStr k :: l)
  | Val.vStr s => Except.ok (s.toList.map (fun c => Val.vStr (String.singleton c)))
  | _ => Except.error PyErr.typeError

/-- Abstract rendering of a CPython float by `str`/`repr`; no claim in this
development depends on the rendered digits, only on the result being a
string. -/
def floatStr (q : ℚ) : String := toString q

mutual

/-- Approximate CPython `repr` of a value (string quoting and dict-key
quoting are abstracted; no claim inspects rendered container text). -/
def pyRepr : Val → String
  | Val.vNull => "None"
  | Val.vBool true => "True"
  | Val.vBool false => "False"
  | Val.vInt n => toString n
  | Val.vFloat q => floatStr q
  | Val.vStr s => s
  | Val.vNilL => "[]"
  | Val.vConsL x xs => "[" ++ String.intercalate ", " (pyRepr x :: pyReprItems xs) ++ "]"
  | Val.vNilD => "\x7b\x7d"
  | Val.vConsD k v rest =>
      "\x7b" ++ String.intercalate ", " ((k ++ ": " ++ pyRepr v) :: pyReprFields rest) ++ "\x7d"

def pyReprItems : Val → List String
  | Val.vConsL x xs => pyRepr x :: pyReprItems xs
  | _ => []

def pyReprFields : Val → List String
  | Val.vConsD k v rest => (k ++ ": " ++ pyRepr v) :: pyReprFields rest
  | _ => []

end

/-- Python `str(v)`. -/
def pyStr : Val → String
  | Val.vStr s => s
  | v => pyRepr v

/-- Value of a non-empty all-digit character list. -/
def digitsVal (cs : List Char) : Option Nat :=
  if cs ≠ [] ∧ cs.all (fun c => c.isDigit) then
    some (cs.foldl (fun a c => a * 10 + (c.toNat - 48)) 0)
  else
    none

/-- Parse of a decimal integer string as Python `int(str)` accepts it (an
optional sign followed by digits; surrounding whitespace and underscore
separators, which CPython also tolerates, are not exercised by any claim). -/
def pyIntOfString (s : String) : Option Int :=
  match s.toList with
  | '-' :: cs => (digitsVal cs).map (fun n => -(n : Int))
  | '+' :: cs => (digitsVal cs).map (fun n => (n : Int))
  | cs => (digitsVal cs).map (fun n => (n : Int))

/-- Python `int(x)`: identity on ints, bools as 0/1, truncation toward zero
on floats, decimal parsing on strings; `none` models the
ValueError/TypeError raised on every other input. -/
def pyToInt : Val → Option Int
  | Val.vInt n => some n
  | Val.vBool b => some (if b then 1 else 0)
  | Val.vFloat q => some (Int.tdiv q.num q.den)
  | Val.vStr s => pyIntOfString s
  | _ => none

/-- src/main.py `get_title`: the `title` field when present and a string,
otherwise the placeholder. -/
def get_title (media : Val) : Except PyErr String := do
  let present ← pyContains media "title"
  if present then
    let t ← pySub media "title"
    match t with
    | Val.vStr s => pure s
    | _ => pure "No title found"
  else
    pure "No title found"

/-- src/main.py `get_overview`: same pattern with the `overview` field. -/
def get_overview (media : Val) : Except PyErr String := do
  let present ← pyContains media "overview"
  if present then
    let t ← pySub media "overview"
    match t with
    | Val.vStr s => pure s
    | _ => pure "No overview found"
  else
    pure "No overview found"

/-- src/main.py `get_year`: when the `year` field is present and a string
the source returns `media["yeat"]` (a misspelled key), which raises KeyError
whenever no `yeat` key exists; otherwise the placeholder. -/
def get_year (media : Val) : Except PyErr Val := do
  let present ← pyContains media "year"
  if present then
    let y ← pySub media "year"
    if y.isStr then
      pySub media "yeat"
    else
      pure (Val.vStr "No year found")
  else
    pure (Val.vStr "No year found")

/-- src/main.py `get_runtime`: `int(min)` then a formatted
"\x7bhours\x7dh \x7bminutes\x7dm" string with Python floor division and
modulo; the bare `except` returns the input unchanged on any conversion
failure. -/
def get_runtime (min : Val) : Val :=
  match pyToInt min with
  | some n => Val.vStr (toString (Int.fdiv n 60) ++ "h " ++ toString (Int.emod n 60) ++ "m")
  | none => min

/-- Scan of the image descriptors inside `get_poster_url` (the loop body):
`image["coverType"]` raises on a descriptor lacking the key, the comparison
with "poster" is Python `==` (false, not an error, on non-strings), and a
matching descriptor's `remoteUrl` is subscripted directly. -/
def posterScan : List Val → Except PyErr Val
  | [] => pure Val.vNull
  | img :: rest => do
      let ct ← pySub img "coverType"
      if ct = Val.vStr "poster" then
        pySub img "remoteUrl"
      else
        posterScan rest

/-- src/main.py `get_poster_url`: first descriptor whose `coverType` equals
"poster" yields its `remoteUrl`; `None` when no descriptor matches. -/
def get_poster_url (images : Val) : Except PyErr Val := do
  let items ← pyIter images
  posterScan items

/-- The `"value" in ratings and isinstance(ratings["value"], float)` test of
`get_rating`. -/
def floatValue (d : Val) : Option ℚ :=
  match dictLookup d "value" with
  | some (Val.vFloat q) => some q
  | _ => none

mutual

/-- src/main.py `get_rating`: a mapping with a float-typed `value` yields
it; otherwise every mapping value, respectively every sequence element, is
searched depth-first left-to-right (CPython `dict.values()` iterates in
insertion order); `none` is Python's `None` when no float is found. -/
def get_rating : Val → Option ℚ
  | Val.vNilD => none
  | Val.vConsD k v rest =>
      match floatValue (Val.vConsD k v rest) with
      | some q => some q
      | none =>
          match get_rating v with
          | some q => some q
          | none => dictValsSearch rest
  | Val.vNilL => none
  | Val.vConsL x xs =>
      match get_rating x with
      | some q => some q
      | none => listItemsSearch xs

  | _ => none

/-- Search of the remaining mapping values inside `get_rating`. -/
def dictValsSearch : Val → Option ℚ
  | Val.vConsD _ v rest =>
      match get_rating v with
      | some q => some q
      | none => dictValsSearch rest
  | _ => none

/-- Search of the remaining sequence elements inside `get_rating`. -/
def listItemsSearch : Val → Option ℚ
  | Val.vConsL x xs =>
      match get_rating x with
      | some q => some q
      | none => listItemsSearch xs
  | _ => none

end

/-- Genre occurrences of one record: `for genre in m["genres"]`. -/
def recordGenres (m : Val) : Except PyErr (List Val) := do
  let gs ← pySub m "genres"
  pyIter gs

/-- All genre occurrences of a collection, in the order of the source's
nested left-to-right loops; an error of any record aborts the aggregation
exactly as the Python exception would. -/
def flattenGenres : List Val → Except PyErr (List Val)
  | [] => Except.ok []
  | m :: ms => do
      let g ← recordGenres m
      let rest ← flattenGenres ms
      pure (g ++ rest)

/-- One step of the histogram loop: `genres[genre] += 1` updates in place
(order preserved), `genres[genre] = 1` inserts at the end, exactly as a
CPython dict behaves. -/
def bump (h : List (Val × Nat)) (g : Val) : List (Val × Nat) :=
  if h.any (fun p => p.1 == g) then
    h.map (fun p => if p.1 = g then (p.1, p.2 + 1) else p)
  else
    h ++ [(g, 1)]

/-- The genre histogram of the occurrence list, as an insertion-ordered
association list. -/
def buildHist (l : List Val) : List (Val × Nat) := l.foldl bump []

/-- The loop inside Python `max(genres, key=genres.get)`: the running best
is replaced only on a strictly greater key, so ties keep the earlier
element of the iteration (dict insertion) order. -/
def pickMax (best : Val × Nat) : List (Val × Nat) → Val × Nat
  | [] => best
  | p :: t => pickMax (if p.2 > best.2 then p else best) t

/-- Python `max(genres, key=genres.get)`: ValueError on an empty mapping,
otherwise the first key of maximal count in insertion order. -/
def pyMaxByCount : List (Val × Nat) → Except PyErr Val
  | [] => Except.error PyErr.valueError
  | p :: t => Except.ok (pickMax p t).1

/-- src/main.py `get_genre`: histogram over all genre occurrences of all
records, then `max(genres, key=genres.get)`. -/
def get_genre (medias : List Val) : Except PyErr Val := do
  let occs ← flattenGenres medias
  pyMaxByCount (buildHist occs)

/-- Maximum of a list of naturals (0 when empty). -/
def listMaxNat (ns : List Nat) : Nat := ns.foldr max 0

/-- The maximum total occurrence count among the genres of the occurrence
list. -/
def maxCount (l : List Val) : Nat := listMaxNat (l.map (fun g => l.count g))

/-- The scan the claim describes: walk the occurrence list left to right
keeping running counts, and return the genre whose occurrence first brings
its running count up to `M`. -/
def firstToReachAux (M : Nat) : List Val → List Val → Option Val
  | _, [] => none
  | seen, g :: rest =>
      if (seen ++ [g]).count g = M then some g
      else firstToReachAux M (seen ++ [g]) rest

/-- The genre that is first to reach the maximum total count during a
single left-to-right scan over all genre occurrences. -/
def firstToReachMax (l : List Val) : Option Val := firstToReachAux (maxCount l) [] l

/-- The genre of maximal total count whose first occurrence comes earliest
in the occurrence list (stable argmax over insertion order). -/
def firstWithMaxCount (l : List Val) : Option Val :=
  l.find? (fun g => l.count g == maxCount l)

/-- TMDB poster base URL from src/main.py. -/
def TMDB_POSTER_URL : String := "https://image.tmdb.org/t/p/original"

/-- The loop of `get_tmdb_genre_from_name`: each taxonomy entry's
`genre["name"].lower()` is compared with the requested name; a non-string
`name` raises AttributeError at `.lower()`, a missing one raises KeyError,
and the matching entry's `id` is returned as-is. -/
def genreScan (lowered : String) : List Val → Except PyErr Val
  | [] => Except.ok (Val.vInt (-1))
  | g :: rest => do
      let n ← pySub g "name"
      match n with
      | Val.vStr s =>
          if s.toLower = lowered then pySub g "id"
          else genreScan lowered rest
      | _ => Except.error PyErr.attributeError

/-- Body of `get_tmdb_genre_from_name` inside its try block.  The
`.lower()` of a non-string `genre_name` is hoisted before the scan; this
only changes which exception is raised (never whether one is), and every
exception collapses to -1 below. -/
def genreFromNameBody (genre_name : Val) (upstream : Except Unit Val) : Except PyErr Val := do
  match upstream with
  | Except.error _ => Except.error PyErr.httpError
  | Except.ok j => do
      let gs ← pySub j "genres"
      let items ← pyIter gs
      match genre_name with
      | Val.vStr nm => genreScan nm.toLower items
      | _ => Except.error PyErr.attributeError

/-- src/main.py `get_tmdb_genre_from_name`: the `except` clause logs and
returns -1 on every failure, so the function never raises to its caller. -/
def get_tmdb_genre_from_name (genre_name : Val) (upstream : Except Unit Val) : Val :=
  match genreFromNameBody genre_name upstream with
  | Except.ok v => v
  | Except.error _ => Val.vInt (-1)

/-- src/main.py `get_tmdb_recomendations`: `response.json()["results"]` on
success; the `except` clause logs and returns -1 on any failure (including
a body without `results`).  The genre id, media kind, page and sort are
request parameters with no effect on this pure shape. -/
def get_tmdb_recomendations (upstream : Except Unit Val) : Val :=
  match upstream with
  | Except.error _ => Val.vInt (-1)
  | Except.ok j =>
      match pySub j "results" with
      | Except.ok r => r
      | Except.error _ => Val.vInt (-1)

/-- The canonical output record of src/main.py.  Every constructor argument
except `watched` is wrapped in Python `str(...)` at every construction
site, so the fields are strings by construction. -/
structure Media where
  name : String
  synopsis : String
  rating : String
  length : String
  thumbnail : String
  watched : Bool
  year : String
  deriving DecidableEq, Repr

/-- src/main.py `Media.to_dict`, as the insertion-ordered field list of the
returned dict. -/
def Media.to_dict (m : Media) : List (String × Val) :=
  [("name", Val.vStr m.name),
   ("synopsis", Val.vStr m.synopsis),
   ("rating", Val.vStr m.rating),
   ("length", Val.vStr m.length),
   ("thumbnail", Val.vStr m.thumbnail),
   ("watched", Val.vBool m.watched),
   ("year", Val.vStr m.year)]

/-- Python `str(get_rating(...))`: a float renders by `floatStr`, `None`
renders as "None". -/
def ratingStr : Option ℚ → String
  | some q => floatStr q
  | none => "None"

/-- One library movie record normalized as in `get_radarr_movies`
(src/main.py lines 125-130), with the same left-to-right evaluation order
of the constructor arguments. -/
def radarr_movie_media (m : Val) : Except PyErr Media := do
  let title ← get_title m
  let overview ← get_overview m
  let ratings ← pySub m "ratings"
  let runtime ← pySub m "runtime"
  let images ← pySub m "images"
  let poster ← get_poster_url images
  let y ← get_year m
  pure { name := title, synopsis := overview,
         rating := ratingStr (get_rating ratings),
         length := pyStr (get_runtime runtime),
         thumbnail := pyStr poster,
         watched := true,
         year := pyStr y }

/-- One library series record normalized as in `get_sonarr_series`
(src/main.py lines 288-294): the length is the raw
`s["statistics"]["episodeCount"]`. -/
def sonarr_series_media (m : Val) : Except PyErr Media := do
  let title ← get_title m
  let overview ← get_overview m
  let ratings ← pySub m "ratings"
  let stats ← pySub m "statistics"
  let epc ← pySub stats "episodeCount"
  let images ← pySub m "images"
  let poster ← get_poster_url images
  let y ← get_year m
  pure { name := title, synopsis := overview,
         rating := ratingStr (get_rating ratings),
         length := pyStr epc,
         thumbnail := pyStr poster,
         watched := true,
         year := pyStr y }

/-- Python string slice `x[:4]`: prefix for strings; the source never
receives a sequence here and any non-string raises TypeError. -/
def pyTake4 : Val → Except PyErr Val
  | Val.vStr s => Except.ok (Val.vStr (s.take 4))
  | _ => Except.error PyErr.typeError

/-- Python `TMDB_POSTER_URL + x`: string concatenation, TypeError on a
non-string right operand. -/
def posterUrlCat : Val → Except PyErr String
  | Val.vStr s => Except.ok (TMDB_POSTER_URL ++ s)
  | _ => Except.error PyErr.typeError

/-- One movie recommendation candidate normalized as in
`discover_radarr_movies` (src/main.py lines 159-165): title from
`original_title`, rating from `vote_average`, length "N/A", poster from
`poster_path`, year from `release_date[:4]`, watched False. -/
def reco_movie_media (m : Val) : Except PyErr Media := do
  let otitle ← pySub m "original_title"
  let overview ← get_overview m
  let vote ← pySub m "vote_average"
  let purl ← posterUrlCat (← pySub m "poster_path")
  let rdate ← pyTake4 (← pySub m "release_date")
  pure { name := pyStr otitle, synopsis := overview,
         rating := pyStr vote,
         length := "N/A",
         thumbnail := purl,
         watched := false,
         year := pyStr rdate }

/-- One series recommendation candidate normalized as in
`discover_sonarr_series` (src/main.py lines 324-330).  The body is
key-for-key the movie layout: it reads `original_title` and
`release_date`, not `original_name` and `first_air_date`. -/
def reco_tv_media (s : Val) : Except PyErr Media := do
  let otitle ← pySub s "original_title"
  let overview ← get_overview s
  let vote ← pySub s "vote_average"
  let purl ← posterUrlCat (← pySub s "poster_path")
  let rdate ← pyTake4 (← pySub s "release_date")
  pure { name := pyStr otitle, synopsis := overview,
         rating := pyStr vote,
         length := "N/A",
         thumbnail := purl,
         watched := false,
         year := pyStr rdate }

/-- Normalization of every candidate of the discover response, aborting on
the first per-record exception as the list comprehension would. -/
def mapMedia (f : Val → Except PyErr Media) : List Val → Except PyErr (List Media)
  | [] => Except.ok []
  | x :: xs => do
      let m ← f x
      let rest ← mapMedia f xs
      pure (m :: rest)

/-- Outcome of a composed recommendation endpoint: the JSON body it
returns, plus whether the discover endpoint (`get_tmdb_recomendations`)
was invoked at all. -/
structure FlowOut where
  body : Val
  fetchCalled : Bool
  deriving DecidableEq, Repr

/-- Endpoint-level body for a Python exception caught by the route's
`except Exception` clause: a dict with an "error" string (whose text is
the exception's message, abstracted here to its class name). -/
def errBody (e : PyErr) : Val :=
  vDictOf [("error", Val.vStr (toString (repr e)))]

/-- Python `"..." + genre`: TypeError unless the genre is a string. -/
def warnBody (prefixText : String) (genre : Val) (fetched : Bool) : FlowOut :=
  match genre with
  | Val.vStr g => ⟨vDictOf [("warning", Val.vStr (prefixText ++ g))], fetched⟩
  | _ => ⟨errBody PyErr.typeError, fetched⟩

/-- Python `v == n` between a value and an integer literal: numeric
cross-type equality (ints, floats and bools compare by value), false on
every other type. -/
def pyEqInt (v : Val) (n : Int) : Bool :=
  match v with
  | Val.vInt m => m == n
  | Val.vFloat q => q == (n : ℚ)
  | Val.vBool b => (if b then (1 : Int) else 0) == n
  | _ => false

/-- The shared shape of the two discover routes after the library fetch:
aggregate the dominant genre, resolve it on TMDB, return the warning
without fetching when the id is -1, otherwise fetch and normalize. -/
def discoverFlow (normalize : Val → Except PyErr Media) (warnPrefix : String)
    (m_data : List Val) (taxonomy : Except Unit Val) (discover : Except Unit Val) : FlowOut :=
  match get_genre m_data with
  | Except.error e => ⟨errBody e, false⟩
  | Except.ok genre =>
      let id := get_tmdb_genre_from_name genre taxonomy
      if pyEqInt id (-1) then
        warnBody warnPrefix genre false
      else
        match pyIter (get_tmdb_recomendations discover) with
        | Except.error e => ⟨errBody e, true⟩
        | Except.ok items =>
            match mapMedia normalize items with
            | Except.error e => ⟨errBody e, true⟩
            | Except.ok medias =>
                if medias = [] then
                  warnBody warnPrefix genre true
                else
                  ⟨vListOf (medias.map (fun md => vDictOf md.to_dict)), true⟩

/-- src/main.py `discover_radarr_movies` (the recommendation logic after
the library fetch). -/
def discover_radarr_movies (m_data : List Val) (taxonomy discover : Except Unit Val) : FlowOut :=
  discoverFlow reco_movie_media "No movies to recommend for: " m_data taxonomy discover

/-- src/main.py `discover_sonarr_series` (the recommendation logic after
the library fetch). -/
def discover_sonarr_series (s_data : List Val) (taxonomy discover : Except Unit Val) : FlowOut :=
  discoverFlow reco_tv_media "No series to recommend for: " s_data taxonomy discover

mutual

/-- The float-typed `value` entries found by the depth-first left-to-right
search the spec describes for `extract_rating`, in the order the search
visits them: a mapping with a float `value` contributes it and stops,
otherwise every mapping value, respectively sequence element, is searched
recursively. -/
def ratingHits : Val → List ℚ
  | Val.vNilD => []
  | Val.vConsD k v rest =>
      match floatValue (Val.vConsD k v rest) with
      | some q => [q]
      | none => ratingHits v ++ dictValsHits rest
  | Val.vNilL => []
  | Val.vConsL x xs => ratingHits x ++ listItemsHits xs
  | _ => []

/-- Hits of the remaining mapping values. -/
def dictValsHits : Val → List ℚ
  | Val.vConsD _ v rest => ratingHits v ++ dictValsHits rest
  | _ => []

/-- Hits of the remaining sequence elements. -/
def listItemsHits : Val → List ℚ
  | Val.vConsL x xs => ratingHits x ++ listItemsHits xs
  | _ => []

end

/-- Every mapping entry keyed `value`, anywhere in the structure, holds an
integer-typed value. -/
def allValueInt : Val → Bool
  | Val.vConsD k v rest => (k != "value" || v.isInt) && allValueInt v && allValueInt rest
  | Val.vConsL x xs => allValueInt x && allValueInt xs
  | _ => true

/-- One `{name, id}` entry of the TMDB genre taxonomy. -/
def taxEntry (e : String × Int) : Val :=
  vDictOf [("name", Val.vStr e.1), ("id", Val.vInt e.2)]

/-- The JSON body of a TMDB `genre/movie/list` response whose taxonomy is
the given `{name, id}` list. -/
def taxonomyVal (entries : List (String × Int)) : Val :=
  vDictOf [("genres", vListOf (entries.map taxEntry))]

/-- Keys of an occurrence list in first-occurrence order: exactly the
insertion order of the histogram dict. -/
def firsts : List Val → List Val
  | [] => []
  | g :: rest => g :: (firsts rest).filter (fun x => x != g)

/-- Direct description of the histogram the loop builds: the
first-occurrence keys, each paired with its total count. -/
def histOf (l : List Val) : List (Val × Nat) :=
  (firsts l).map (fun k => (k, l.count k))

/-- Running maximum of the counts seen by the `max` loop, starting from the
first entry. -/
def maxSnd (b : Val × Nat) (t : List (Val × Nat)) : Nat :=
  t.foldl (fun m p => max m p.2) b.2

/-- A typical TMDB tv discover candidate: it carries the series layout
keys `original_name` and `first_air_date`, not the movie keys. -/
def tvCandidate : Val :=
  vDictOf [("original_name", Val.vStr "Dark"),
           ("first_air_date", Val.vStr "2017-12-01"),
           ("overview", Val.vStr "A missing child"),
           ("vote_average", Val.vFloat (mkRat 8 1)),
           ("poster_path", Val.vStr "/dark.jpg")]

/-- The same candidate re-keyed with the movie layout, which is what the
series branch actually reads. -/
def tvCandidateMovieKeyed : Val :=
  vDictOf [("original_title", Val.vStr "Dark"),
           ("release_date", Val.vStr "2017-12-01"),
           ("overview", Val.vStr "A missing child"),
           ("vote_average", Val.vFloat (mkRat 8 1)),
           ("poster_path", Val.vStr "/dark.jpg")]

/-- The canonical field-name order of every Media output dict. -/
def mediaFieldNames : List String :=
  ["name", "synopsis", "rating", "length", "thumbnail", "watched", "year"]

/-- A value is a JSON string or boolean (in particular it is neither null
nor missing). -/
def isStrOrBool : Val → Bool
  | Val.vStr _ => true
  | Val.vBool _ => true
  | _ => false

/-- A complete library movie record, used to witness C9. -/
def sampleMovie : Val :=
  vDictOf [("title", Val.vStr "T"),
           ("ratings", vDictOf [("value", Val.vFloat (mkRat 7 1))]),
           ("runtime", Val.vInt 125),
           ("images", vListOf [vDictOf [("coverType", Val.vStr "poster"),
                                        ("remoteUrl", Val.vStr "u")]])]

/-- The Media record `sampleMovie` normalizes to. -/
def sampleMovieMedia : Media :=
  { name := "T", synopsis := "No overview found", rating := "7", length := "2h 5m",
    thumbnail := "u", watched := true, year := "No year found" }

mutual

/-- The function `get_rating` returns exactly the first float of the depth-first
left-to-right search, and `None` when the search finds none. -/
theorem get_rating_eq_head : (v : Val) → get_rating v = (ratingHits v).head?
  | Val.vNull => rfl
  | Val.vBool _ => rfl
  | Val.vInt _ => rfl
  | Val.vFloat _ => rfl
  | Val.vStr _ => rfl
  | Val.vNilL => rfl
  | Val.vNilD => rfl
  | Val.vConsL x xs => by
      rw [get_rating, ratingHits, get_rating_eq_head x, listItemsSearch_eq_head xs]
      cases ratingHits x <;> simp
  | Val.vConsD k v rest => by
      rw [get_rating, ratingHits]
      cases hf : floatValue (Val.vConsD k v rest) with
      | some q => simp
      | none =>
          rw [get_rating_eq_head v, dictValsSearch_eq_head rest]
          cases ratingHits v <;> simp

theorem dictValsSearch_eq_head : (v : Val) → dictValsSearch v = (dictValsHits v).head?
  | Val.vNull => rfl
  | Val.vBool _ => rfl
  | Val.vInt _ => rfl
  | Val.vFloat _ => rfl
  | Val.vStr _ => rfl
  | Val.vNilL => rfl
  | Val.vNilD => rfl
  | Val.vConsL _ _ => rfl
  | Val.vConsD k v rest => by
      rw [dictValsSearch, dictValsHits, get_rating_eq_head v, dictValsSearch_eq_head rest]
      cases ratingHits v <;> simp

theorem listItemsSearch_eq_head : (v : Val) → listItemsSearch v = (listItemsHits v).head?
  | Val.vNull => rfl
  | Val.vBool _ => rfl
  | Val.vInt _ => rfl
  | Val.vFloat _ => rfl
  | Val.vStr _ => rfl
  | Val.vNilD => rfl
  | Val.vNilL => rfl
  | Val.vConsD _ _ _ => rfl
  | Val.vConsL x xs => by
      rw [listItemsSearch, listItemsHits, get_rating_eq_head x, listItemsSearch_eq_head xs]
      cases ratingHits x <;> simp

end

theorem allValueInt_lookup : (d : Val) → allValueInt d = true →
    ∀ w, dictLookup d "value" = some w → w.isInt = true
  | Val.vConsD k v rest => by
      intro h w hw
      rw [allValueInt] at h
      rw [dictLookup] at hw
      by_cases hk : k = "value"
      · rw [if_pos hk] at hw
        cases hw
        simp only [Bool.and_eq_true, Bool.or_eq_true, bne_iff_ne, ne_eq] at h
        rcases h.1.1 with h' | h'
        · exact absurd hk h'
        · exact h'
      · rw [if_neg hk] at hw
        simp only [Bool.and_eq_true] at h
        exact allValueInt_lookup rest h.2 w hw
  | Val.vNull => by intro _ w hw; simp [dictLookup] at hw
  | Val.vBool _ => by intro _ w hw; simp [dictLookup] at hw
  | Val.vInt _ => by intro _ w hw; simp [dictLookup] at hw
  | Val.vFloat _ => by intro _ w hw; simp [dictLookup] at hw
  | Val.vStr _ => by intro _ w hw; simp [dictLookup] at hw
  | Val.vNilL => by intro _ w hw; simp [dictLookup] at hw
  | Val.vConsL _ _ => by intro _ w hw; simp [dictLookup] at hw
  | Val.vNilD => by intro _ w hw; simp [dictLookup] at hw

mutual

theorem ratingHits_of_allValueInt : (v : Val) → allValueInt v = true → ratingHits v = []
  | Val.vNull => fun _ => rfl
  | Val.vBool _ => fun _ => rfl
  | Val.vInt _ => fun _ => rfl
  | Val.vFloat _ => fun _ => rfl
  | Val.vStr _ => fun _ => rfl
  | Val.vNilL => fun _ => rfl
  | Val.vNilD => fun _ => rfl
  | Val.vConsL x xs => by
      intro h
      rw [allValueInt, Bool.and_eq_true] at h
      rw [ratingHits, ratingHits_of_allValueInt x h.1, listItemsHits_of_allValueInt xs h.2]
      rfl
  | Val.vConsD k v rest => by
      intro h
      have h' := h
      rw [allValueInt, Bool.and_eq_true, Bool.and_eq_true] at h'
      rw [ratingHits]
      cases hf : floatValue (Val.vConsD k v rest) with
      | some q =>
          exfalso
          rw [floatValue] at hf
          cases hl : dictLookup (Val.vConsD k v rest) "value" with
          | none => rw [hl] at hf; exact Option.noConfusion hf
          | some w =>
              have hint := allValueInt_lookup _ h w hl
              rw [hl] at hf
              cases w <;> simp [Val.isInt] at hint hf
      | none =>
          rw [ratingHits_of_allValueInt v h'.1.2, dictValsHits_of_allValueInt rest h'.2]
          rfl

theorem dictValsHits_of_allValueInt : (v : Val) → allValueInt v = true → dictValsHits v = []
  | Val.vNull => fun _ => rfl
  | Val.vBool _ => fun _ => rfl
  | Val.vInt _ => fun _ => rfl
  | Val.vFloat _ => fun _ => rfl
  | Val.vStr _ => fun _ => rfl
  | Val.vNilL => fun _ => rfl
  | Val.vNilD => fun _ => rfl
  | Val.vConsL _ _ => fun _ => rfl
  | Val.vConsD k v rest => by
      intro h
      rw [allValueInt, Bool.and_eq_true, Bool.and_eq_true] at h
      rw [dictValsHits, ratingHits_of_allValueInt v h.1.2, dictValsHits_of_allValueInt rest h.2]
      rfl

theorem listItemsHits_of_allValueInt : (v : Val) → allValueInt v = true → listItemsHits v = []
  | Val.vNull => fun _ => rfl
  | Val.vBool _ => fun _ => rfl
  | Val.vInt _ => fun _ => rfl
  | Val.vFloat _ => fun _ => rfl
  | Val.vStr _ => fun _ => rfl
  | Val.vNilD => fun _ => rfl
  | Val.vNilL => fun _ => rfl
  | Val.vConsD _ _ _ => fun _ => rfl
  | Val.vConsL x xs => by
      intro h
      rw [allValueInt, Bool.and_eq_true] at h
      rw [listItemsHits, ratingHits_of_allValueInt x h.1, listItemsHits_of_allValueInt xs h.2]
      rfl

end

theorem okBind {α β : Type} (a : α) (f : α → Except PyErr β) :
    (Except.ok a >>= f : Except PyErr β) = f a := rfl

theorem errBind {α β : Type} (e : PyErr) (f : α → Except PyErr β) :
    (Except.error e >>= f : Except PyErr β) = Except.error e := rfl

theorem pyIter_vListOf : (l : List Val) → pyIter (vListOf l) = Except.ok l
  | [] => rfl
  | x :: xs => by rw [vListOf, pyIter, pyIter_vListOf xs]; rfl

theorem genreScan_tax : (low : String) → (entries : List (String × Int)) →
    genreScan low (entries.map taxEntry) =
      Except.ok (match entries.find? (fun e => e.1.toLower == low) with
                 | some e => Val.vInt e.2
                 | none => Val.vInt (-1))
  | _, [] => rfl
  | low, e :: rest => by
      by_cases hl : e.1.toLower = low
      · simp [genreScan, taxEntry, vDictOf, pySub, dictLookup, Val.isDict, hl, okBind]
      · simp [genreScan, taxEntry, vDictOf, pySub, dictLookup, Val.isDict, hl, okBind,
          genreScan_tax low rest]

theorem mem_firsts (a : Val) : (l : List Val) → (a ∈ firsts l ↔ a ∈ l)
  | [] => Iff.rfl
  | g :: rest => by
      rw [firsts]
      simp only [List.mem_cons, List.mem_filter, bne_iff_ne, ne_eq, mem_firsts a rest]
      constructor
      · rintro (h | ⟨h, _⟩)
        · exact Or.inl h
        · exact Or.inr h
      · intro h
        by_cases hg : a = g
        · exact Or.inl hg
        · rcases h with h | h
          · exact Or.inl h
          · exact Or.inr ⟨h, hg⟩

theorem firsts_append_one : (p : List Val) → (g : Val) →
    firsts (p ++ [g]) = if g ∈ p then firsts p else firsts p ++ [g]
  | [], g => by simp [firsts]
  | a :: p', g => by
      rw [List.cons_append, firsts, firsts_append_one p' g, firsts]
      by_cases hg : g ∈ p'
      · rw [if_pos hg, if_pos (List.mem_cons_of_mem a hg)]
      · rw [if_neg hg, List.filter_append]
        by_cases hga : g = a
        · have : (g != a) = false := by simp [hga]
          rw [if_pos (by rw [hga]; exact List.mem_cons_self a p')]
          simp [this]
        · have : (g != a) = true := by simp [hga]
          rw [if_neg (by simp [hga, hg])]
          simp [this]

theorem le_foldl_max : (t : List (Val × Nat)) → (x : Nat) →
    x ≤ t.foldl (fun m p => max m p.2) x
  | [], _ => le_refl _
  | q :: t', x => by
      rw [List.foldl_cons]
      exact le_trans (Nat.le_max_left x q.2) (le_foldl_max t' (max x q.2))

theorem le_maxSnd (b : Val × Nat) (t : List (Val × Nat)) : b.2 ≤ maxSnd b t :=
  le_foldl_max t b.2

theorem maxSnd_cons (b q : Val × Nat) (t : List (Val × Nat)) :
    maxSnd b (q :: t) = maxSnd (if q.2 > b.2 then q else b) t := by
  rw [maxSnd, maxSnd, List.foldl_cons]
  by_cases h : q.2 > b.2
  · rw [if_pos h, Nat.max_eq_right (Nat.le_of_lt h)]
  · rw [if_neg h, Nat.max_eq_left (Nat.le_of_not_lt h)]

theorem pickMax_find : (t : List (Val × Nat)) → (b : Val × Nat) →
    (b :: t).find? (fun q => q.2 == maxSnd b t) = some (pickMax b t)
  | [], b => by
      rw [pickMax]
      exact List.find?_cons_of_pos _ (by simp [maxSnd])
  | q :: t', b => by
      by_cases hq : q.2 > b.2
      · rw [maxSnd_cons, if_pos hq, pickMax, if_pos hq]
        have hbM : b.2 ≠ maxSnd q t' := by
          have h1 : q.2 ≤ maxSnd q t' := le_maxSnd q t'
          omega
        rw [List.find?_cons_of_neg _ (by simp [hbM])]
        exact pickMax_find t' q
      · rw [maxSnd_cons, if_neg hq, pickMax, if_neg hq]
        have IH := pickMax_find t' b
        by_cases hb : b.2 = maxSnd b t'
        · rw [List.find?_cons_of_pos _ (by simp [hb])]
          rw [List.find?_cons_of_pos _ (by simp [hb])] at IH
          exact IH
        · have hq2 : q.2 ≠ maxSnd b t' := by
            have h1 : b.2 ≤ maxSnd b t' := le_maxSnd b t'
            omega
          rw [List.find?_cons_of_neg _ (by simp [hb]),
              List.find?_cons_of_neg _ (by simp [hq2])]
          rw [List.find?_cons_of_neg _ (by simp [hb])] at IH
          exact IH

theorem foldl_max_eq : (t : List (Val × Nat)) → (x : Nat) →
    t.foldl (fun m p => max m p.2) x = max x (listMaxNat (t.map Prod.snd))
  | [], x => by simp [listMaxNat]
  | q :: t', x => by
      rw [List.foldl_cons, foldl_max_eq t' (max x q.2), List.map_cons]
      simp only [listMaxNat, List.foldr_cons]
      exact Nat.max_assoc x q.2 _

theorem listMaxNat_le {ns : List Nat} {m : Nat} (h : ∀ x ∈ ns, x ≤ m) :
    listMaxNat ns ≤ m := by
  induction ns with
  | nil => exact Nat.zero_le m
  | cons n ns ih =>
      rw [listMaxNat, List.foldr_cons]
      exact Nat.max_le.mpr ⟨h n (List.mem_cons_self n ns),
        ih (fun x hx => h x (List.mem_cons_of_mem n hx))⟩

theorem le_listMaxNat {ns : List Nat} {x : Nat} (h : x ∈ ns) : x ≤ listMaxNat ns := by
  induction ns with
  | nil => exact absurd h (List.not_mem_nil x)
  | cons n ns ih =>
      rw [listMaxNat, List.foldr_cons]
      rcases List.mem_cons.mp h with rfl | h'
      · exact Nat.le_max_left _ _
      · exact le_trans (ih h') (Nat.le_max_right _ _)

theorem maxCount_firsts (l : List Val) :
    listMaxNat ((firsts l).map (fun k => l.count k)) = maxCount l := by
  apply le_antisymm
  · apply listMaxNat_le
    intro x hx
    rcases List.mem_map.mp hx with ⟨k, hk, rfl⟩
    exact le_listMaxNat (List.mem_map_of_mem _ ((mem_firsts k l).mp hk))
  · apply listMaxNat_le
    intro x hx
    rcases List.mem_map.mp hx with ⟨k, hk, rfl⟩
    exact le_listMaxNat (List.mem_map_of_mem _ ((mem_firsts k l).mpr hk))

theorem find?_filter_ne : (xs : List Val) → (p : Val → Bool) → (a : Val) →
    p a = false → (xs.filter (fun x => x != a)).find? p = xs.find? p
  | [], _, _, _ => rfl
  | x :: xs', p, a, hpa => by
      rw [List.filter_cons]
      by_cases hxa : x = a
      · subst hxa
        simp only [bne_self_eq_false, Bool.false_eq_true, if_false]
        rw [find?_filter_ne xs' p x hpa, List.find?_cons_of_neg _ (by simp [hpa])]
      · have hne : (x != a) = true := by simp [hxa]
        rw [hne, if_pos rfl]
        by_cases hpx : p x = true
        · rw [List.find?_cons_of_pos _ hpx, List.find?_cons_of_pos _ hpx]
        · rw [List.find?_cons_of_neg _ hpx, List.find?_cons_of_neg _ hpx]
          exact find?_filter_ne xs' p a hpa

theorem firsts_find? : (l : List Val) → (p : Val → Bool) →
    (firsts l).find? p = l.find? p
  | [], _ => rfl
  | g :: rest, p => by
      rw [firsts]
      by_cases hpg : p g = true
      · rw [List.find?_cons_of_pos _ hpg, List.find?_cons_of_pos _ hpg]
      · rw [List.find?_cons_of_neg _ hpg, List.find?_cons_of_neg _ hpg]
        rw [find?_filter_ne _ p g (Bool.not_eq_true _ ▸ hpg)]
        exact firsts_find? rest p

theorem bump_histOf (p : List Val) (g : Val) : bump (histOf p) g = histOf (p ++ [g]) := by
  rw [bump, histOf, histOf, firsts_append_one]
  by_cases hg : g ∈ p
  · have hany : ((firsts p).map (fun k => (k, p.count k))).any (fun q => q.1 == g) = true := by
      rw [List.any_eq_true]
      exact ⟨(g, p.count g), List.mem_map_of_mem _ ((mem_firsts g p).mpr hg), by simp⟩
    rw [if_pos hg]
    simp only [hany, if_true]
    rw [List.map_map]
    apply List.map_congr_left
    intro k _
    simp only [Function.comp]
    by_cases hkg : k = g
    · subst hkg
      rw [if_pos rfl, List.count_append, List.count_singleton]
      simp
    · rw [if_neg hkg, List.count_append, List.count_singleton]
      have hgk : (g == k) = false := beq_eq_false_iff_ne.mpr (Ne.symm hkg)
      rw [hgk]
      simp
  · have hany : ((firsts p).map (fun k => (k, p.count k))).any (fun q => q.1 == g) = false := by
      rw [Bool.eq_false_iff]
      intro hcontra
      rw [List.any_eq_true] at hcontra
      rcases hcontra with ⟨q, hq, hqeq⟩
      rcases List.mem_map.mp hq with ⟨k, hk, rfl⟩
      rw [beq_iff_eq] at hqeq
      exact hg ((mem_firsts g p).mp (hqeq ▸ hk))
    rw [if_neg hg]
    simp only [hany, Bool.false_eq_true, if_false]
    rw [List.map_append]
    congr 1
    · apply List.map_congr_left
      intro k hk
      have hkg : k ≠ g := fun h => hg (h ▸ (mem_firsts k p).mp hk)
      rw [List.count_append, List.count_singleton]
      have hgk : (g == k) = false := beq_eq_false_iff_ne.mpr (Ne.symm hkg)
      rw [hgk]
      simp
    · rw [List.map_cons, List.map_nil]
      rw [List.count_append, List.count_singleton]
      have h0 : p.count g = 0 := List.count_eq_zero.mpr hg
      rw [h0]
      simp

theorem foldl_bump_histOf : (l p : List Val) → List.foldl bump (histOf p) l = histOf (p ++ l)
  | [], p => by rw [List.foldl_nil, List.append_nil]
  | g :: l, p => by
      rw [List.foldl_cons, bump_histOf, foldl_bump_histOf l (p ++ [g]), List.append_assoc]
      rfl

theorem buildHist_eq (l : List Val) : buildHist l = histOf l := by
  have h := foldl_bump_histOf l []
  rw [List.nil_append] at h
  rw [buildHist]
  rw [show histOf [] = [] from rfl] at h
  exact h

theorem get_genre_char (l : List Val) :
    pyMaxByCount (buildHist l) =
      (match firstWithMaxCount l with
       | some g => Except.ok g
       | none => Except.error PyErr.valueError) := by
  cases l with
  | nil => rfl
  | cons a l' =>
      rw [buildHist_eq]
      have hfir : firsts (a :: l') = a :: (firsts l').filter (fun x => x != a) := rfl
      have hhist : histOf (a :: l') =
          (a, (a :: l').count a) ::
            ((firsts l').filter (fun x => x != a)).map (fun k => (k, (a :: l').count k)) := by
        rw [histOf, hfir, List.map_cons]
      have hM : maxSnd (a, (a :: l').count a)
          (((firsts l').filter (fun x => x != a)).map (fun k => (k, (a :: l').count k))) =
          maxCount (a :: l') := by
        rw [maxSnd, foldl_max_eq, List.map_map]
        have h1 : (Prod.snd ∘ fun k => (k, (a :: l').count k)) =
            fun k => (a :: l').count k := rfl
        rw [h1]
        have h2 := maxCount_firsts (a :: l')
        rw [hfir, List.map_cons] at h2
        simp only [listMaxNat, List.foldr_cons] at h2
        exact h2
      have hfind := pickMax_find
        (((firsts l').filter (fun x => x != a)).map (fun k => (k, (a :: l').count k)))
        (a, (a :: l').count a)
      rw [hM] at hfind
      have hmapl : (a, (a :: l').count a) ::
            ((firsts l').filter (fun x => x != a)).map (fun k => (k, (a :: l').count k))
          = (a :: (firsts l').filter (fun x => x != a)).map (fun k => (k, (a :: l').count k)) := by
        rw [List.map_cons]
      rw [hmapl, List.find?_map] at hfind
      have hcomp : ((fun q : Val × Nat => q.2 == maxCount (a :: l')) ∘
            (fun k => (k, (a :: l').count k)))
          = fun k => (a :: l').count k == maxCount (a :: l') := rfl
      rw [hcomp] at hfind
      rw [show a :: (firsts l').filter (fun x => x != a) = firsts (a :: l') from rfl,
          firsts_find?] at hfind
      rw [hhist, pyMaxByCount]
      rw [show firstWithMaxCount (a :: l') =
            (a :: l').find? (fun k => (a :: l').count k == maxCount (a :: l')) from rfl]
      cases hfw : (a :: l').find? (fun k => (a :: l').count k == maxCount (a :: l')) with
      | none =>
          rw [hfw] at hfind
          exact absurd hfind (by simp)
      | some k1 =>
          rw [hfw] at hfind
          simp only [Option.map_some'] at hfind
          have hk1 := Option.some.inj hfind
          rw [← hk1]

theorem pyContains_vDictOf (fs : List (String × Val)) (key : String) :
    pyContains (vDictOf fs) key = Except.ok (dictLookup (vDictOf fs) key).isSome := by
  cases fs with
  | nil => rfl
  | cons p fs' => cases p; rfl

theorem pySub_vDictOf (fs : List (String × Val)) (key : String) :
    pySub (vDictOf fs) key =
      (match dictLookup (vDictOf fs) key with
       | some x => Except.ok x
       | none => Except.error PyErr.keyError) := by
  cases fs with
  | nil => rfl
  | cons p fs' => cases p; rfl

/-- C1 counterexample: on the genre scan B, A, A, B the genre A is the
first to reach the maximum count 2 (at its second occurrence), but
`get_genre` returns B, the first-inserted key of maximal count: the
claimed "first to reach the maximum during the scan" tie-break is not the
code's tie-break. -/
theorem dominant_genre_first_to_reach_counterexample :
    flattenGenres [vDictOf [("genres",
        vListOf [Val.vStr "B", Val.vStr "A", Val.vStr "A", Val.vStr "B"])]]
      = Except.ok [Val.vStr "B", Val.vStr "A", Val.vStr "A", Val.vStr "B"]
    ∧ firstToReachMax [Val.vStr "B", Val.vStr "A", Val.vStr "A", Val.vStr "B"]
      = some (Val.vStr "A")
    ∧ get_genre [vDictOf [("genres",
        vListOf [Val.vStr "B", Val.vStr "A", Val.vStr "A", Val.vStr "B"])]]
      = Except.ok (Val.vStr "B")
    ∧ Val.vStr "B" ≠ Val.vStr "A" :=
  ⟨by decide, by decide, by decide, by decide⟩

/-- C1 (amended): for every record collection whose genre occurrences read
successfully, `get_genre` deterministically returns the genre of maximal
total count whose first occurrence comes earliest in the single
left-to-right scan (stable argmax over histogram insertion order) — not
the genre that is first to reach the maximal count. -/
theorem dominant_genre_stable_argmax :
    ∀ (medias occs : List Val), flattenGenres medias = Except.ok occs →
      get_genre medias =
        (match firstWithMaxCount occs with
         | some g => Except.ok g
         | none => Except.error PyErr.valueError) := by
  intro medias occs h
  show (flattenGenres medias >>= fun occs => pyMaxByCount (buildHist occs)) = _
  rw [h, okBind]
  exact get_genre_char occs

/-- Witness for the amended C1 tie-break theorem at a concrete library. -/
theorem dominant_genre_stable_argmax_witness :
    flattenGenres [vDictOf [("genres", vListOf [Val.vStr "Action", Val.vStr "Drama"])],
        vDictOf [("genres", vListOf [Val.vStr "Action"])]]
      = Except.ok [Val.vStr "Action", Val.vStr "Drama", Val.vStr "Action"]
    ∧ get_genre [vDictOf [("genres", vListOf [Val.vStr "Action", Val.vStr "Drama"])],
        vDictOf [("genres", vListOf [Val.vStr "Action"])]]
      = (match firstWithMaxCount [Val.vStr "Action", Val.vStr "Drama", Val.vStr "Action"] with
         | some g => Except.ok g
         | none => Except.error PyErr.valueError) :=
  ⟨by decide,
   dominant_genre_stable_argmax
     [vDictOf [("genres", vListOf [Val.vStr "Action", Val.vStr "Drama"])],
      vDictOf [("genres", vListOf [Val.vStr "Action"])]]
     [Val.vStr "Action", Val.vStr "Drama", Val.vStr "Action"] (by decide)⟩

/-- C2 counterexample: for the record with a string `year` field (and no
`yeat` key), `get_year` raises KeyError instead of returning the
placeholder "No year found" as claimed. -/
theorem extract_year_placeholder_counterexample :
    get_year (vDictOf [("year", Val.vStr "2020")]) = Except.error PyErr.keyError
    ∧ Except.error PyErr.keyError ≠ (Except.ok (Val.vStr "No year found") : Except PyErr Val) :=
  ⟨by decide, by decide⟩

theorem get_year_reads_yeat (fs : List (String × Val)) (s : String)
    (h : dictLookup (vDictOf fs) "year" = some (Val.vStr s)) :
    get_year (vDictOf fs) = pySub (vDictOf fs) "yeat" := by
  simp [get_year, pyContains_vDictOf, pySub_vDictOf, h, okBind, Val.isStr]

/-- C2 (amended): when the `year` field is present as a string, `get_year`
reads the misspelled key `yeat` instead — raising KeyError whenever that
key is absent; the placeholder "No year found" is returned (without
raising) exactly when `year` is absent or not a string. -/
theorem extract_year_misreads_key :
    (∀ (fs : List (String × Val)) (s : String),
       dictLookup (vDictOf fs) "year" = some (Val.vStr s) →
       get_year (vDictOf fs) = pySub (vDictOf fs) "yeat")
    ∧ (∀ (fs : List (String × Val)) (v : Val),
       dictLookup (vDictOf fs) "year" = some v → v.isStr = false →
       get_year (vDictOf fs) = Except.ok (Val.vStr "No year found"))
    ∧ (∀ fs : List (String × Val),
       dictLookup (vDictOf fs) "year" = none →
       get_year (vDictOf fs) = Except.ok (Val.vStr "No year found")) := by
  refine ⟨?_, ?_, ?_⟩
  · intro fs s h
    exact get_year_reads_yeat fs s h
  · intro fs v h hv
    simp [get_year, pyContains_vDictOf, pySub_vDictOf, h, hv, okBind]
  · intro fs h
    simp [get_year, pyContains_vDictOf, h, okBind]
    rfl

/-- Witness for the amended C2 theorem at a concrete record. -/
theorem extract_year_misreads_key_witness :
    dictLookup (vDictOf [("year", Val.vStr "2020")]) "year" = some (Val.vStr "2020")
    ∧ get_year (vDictOf [("year", Val.vStr "2020")])
        = pySub (vDictOf [("year", Val.vStr "2020")]) "yeat" :=
  ⟨by decide, extract_year_misreads_key.1 _ "2020" (by decide)⟩

/-- C3 counterexample: a record carrying no genre occurrence because it
lacks the `genres` field makes `get_genre` fail with KeyError, not with
the empty-maximization ValueError that plays the role of EmptyInputError. -/
theorem empty_genre_missing_key_counterexample :
    get_genre [vDictOf []] = Except.error PyErr.keyError
    ∧ PyErr.keyError ≠ PyErr.valueError :=
  ⟨by decide, by decide⟩

/-- C3 (amended): `get_genre` fails with the empty-maximization error
(ValueError from `max` on an empty mapping, the code's EmptyInputError) on
the empty collection, and on every collection whose records' genre
sequences all read successfully as empty; a record lacking the `genres`
field fails with KeyError instead.  In every such case no genre is
returned. -/
theorem dominant_genre_empty_input :
    get_genre [] = Except.error PyErr.valueError
    ∧ ∀ medias : List Val, flattenGenres medias = Except.ok [] →
        get_genre medias = Except.error PyErr.valueError := by
  constructor
  · rfl
  · intro medias h
    show (flattenGenres medias >>= fun occs => pyMaxByCount (buildHist occs)) = _
    rw [h, okBind]
    rfl

/-- Witness for the amended C3 theorem at a concrete record with an empty
genres list. -/
theorem dominant_genre_empty_input_witness :
    flattenGenres [vDictOf [("genres", vListOf [])]] = Except.ok []
    ∧ get_genre [vDictOf [("genres", vListOf [])]] = Except.error PyErr.valueError :=
  ⟨by decide, dominant_genre_empty_input.2 _ (by decide)⟩

/-- C4: `get_rating` returns exactly the first float-typed `value` of the
depth-first left-to-right search over mappings and sequences (`none` is
Python's null when no such float exists), and in particular the mapping
with an `imdb` sub-object yields 7.5 and the two-element list yields its
first value 8.1. -/
theorem extract_rating_dfs_first_float :
    (∀ v : Val, get_rating v = (ratingHits v).head?)
    ∧ get_rating (vDictOf [("imdb", vDictOf [("value", Val.vFloat (mkRat 15 2))])])
        = some (mkRat 15 2)
    ∧ get_rating (vListOf [vDictOf [("value", Val.vFloat (mkRat 81 10))],
        vDictOf [("value", Val.vFloat (mkRat 6 1))]]) = some (mkRat 81 10) :=
  ⟨get_rating_eq_head, by decide, by decide⟩

/-- C10: a ratings structure all of whose `value` entries are
integer-typed (never float-typed) makes `get_rating` return `none`: the
search only ever returns a float-typed `value`, so integer-encoded ratings
are silently skipped. -/
theorem int_ratings_skipped (v : Val) (h : allValueInt v = true) : get_rating v = none := by
  rw [get_rating_eq_head, ratingHits_of_allValueInt v h]
  rfl

/-- Witness for C10 at the concrete input with an integer rating 8. -/
theorem int_ratings_skipped_witness :
    allValueInt (vDictOf [("value", Val.vInt 8)]) = true
    ∧ get_rating (vDictOf [("value", Val.vInt 8)]) = none :=
  ⟨by decide, int_ratings_skipped _ (by decide)⟩

/-- C5: `get_tmdb_genre_from_name` returns the `id` of the first taxonomy
entry whose `name` matches the requested genre name case-insensitively,
and the sentinel -1 both when no entry matches and when the upstream call
fails; being total, it never raises to its caller. -/
theorem resolve_genre_id_char :
    (∀ (name : String) (entries : List (String × Int)),
      get_tmdb_genre_from_name (Val.vStr name) (Except.ok (taxonomyVal entries)) =
        (match entries.find? (fun e => e.1.toLower == name.toLower) with
         | some e => Val.vInt e.2
         | none => Val.vInt (-1)))
    ∧ (∀ gn : Val, get_tmdb_genre_from_name gn (Except.error ()) = Val.vInt (-1)) := by
  constructor
  · intro name entries
    have hbody : genreFromNameBody (Val.vStr name) (Except.ok (taxonomyVal entries))
        = genreScan name.toLower (entries.map taxEntry) := by
      show (pySub (taxonomyVal entries) "genres" >>= fun gs =>
          pyIter gs >>= fun items => genreScan name.toLower items)
          = genreScan name.toLower (entries.map taxEntry)
      rw [show pySub (taxonomyVal entries) "genres"
            = Except.ok (vListOf (entries.map taxEntry)) from rfl,
          okBind, pyIter_vListOf, okBind]
    rw [get_tmdb_genre_from_name, hbody, genreScan_tax]
  · intro gn
    rfl

/-- C6: whenever the dominant genre of the library resolves to the
"not found" sentinel -1, both discover routes return the empty
recommendation result annotated with the attempted genre name, for every
possible discover response — the discover endpoint is never invoked. -/
theorem discover_not_found_no_fetch :
    ∀ (lib : List Val) (g : String) (taxonomy : Except Unit Val),
      get_genre lib = Except.ok (Val.vStr g) →
      get_tmdb_genre_from_name (Val.vStr g) taxonomy = Val.vInt (-1) →
      ∀ discover : Except Unit Val,
        discover_radarr_movies lib taxonomy discover =
          ⟨vDictOf [("warning", Val.vStr ("No movies to recommend for: " ++ g))], false⟩
        ∧ discover_sonarr_series lib taxonomy discover =
          ⟨vDictOf [("warning", Val.vStr ("No series to recommend for: " ++ g))], false⟩ := by
  intro lib g taxonomy hg hid discover
  constructor
  · rw [discover_radarr_movies, discoverFlow, hg]
    simp [hid, pyEqInt, warnBody]
  · rw [discover_sonarr_series, discoverFlow, hg]
    simp [hid, pyEqInt, warnBody]

/-- Witness for C6: a Horror library against an empty taxonomy, with an
arbitrary (here failing) discover response. -/
theorem discover_not_found_no_fetch_witness :
    get_genre [vDictOf [("genres", vListOf [Val.vStr "Horror"])]]
      = Except.ok (Val.vStr "Horror")
    ∧ get_tmdb_genre_from_name (Val.vStr "Horror") (Except.ok (taxonomyVal []))
      = Val.vInt (-1)
    ∧ (discover_radarr_movies [vDictOf [("genres", vListOf [Val.vStr "Horror"])]]
          (Except.ok (taxonomyVal [])) (Except.error ()) =
        ⟨vDictOf [("warning", Val.vStr ("No movies to recommend for: " ++ "Horror"))], false⟩
      ∧ discover_sonarr_series [vDictOf [("genres", vListOf [Val.vStr "Horror"])]]
          (Except.ok (taxonomyVal [])) (Except.error ()) =
        ⟨vDictOf [("warning", Val.vStr ("No series to recommend for: " ++ "Horror"))], false⟩) :=
  ⟨by decide, by decide,
   discover_not_found_no_fetch [vDictOf [("genres", vListOf [Val.vStr "Horror"])]]
     "Horror" (Except.ok (taxonomyVal [])) (by decide) (by decide) (Except.error ())⟩

/-- C7 (code bug): the series recommendation normalizer reads the movie
keys `original_title`/`release_date`, not `original_name`/`first_air_date`
as the spec's schema_variant requires: it raises KeyError on a genuine tv
candidate and succeeds only when the candidate is movie-keyed.  The source
itself records the breakage ("recommandés NOK", "TODO: Fix the issue where
no recommendations are found for tv"). -/
theorem recotv_reads_movie_keys :
    reco_tv_media tvCandidate = Except.error PyErr.keyError
    ∧ reco_tv_media tvCandidateMovieKeyed = Except.ok
        { name := "Dark", synopsis := "A missing child", rating := "8", length := "N/A",
          thumbnail := TMDB_POSTER_URL ++ "/dark.jpg", watched := false, year := "2017" } :=
  ⟨by decide, by decide⟩

/-- C8 counterexample: `get_poster_url` raises KeyError on an image
descriptor lacking the `coverType` key, contradicting the claim that no
extractor ever raises on a missing primary field. -/
theorem poster_url_missing_covertype_counterexample :
    get_poster_url (vListOf [vDictOf []]) = Except.error PyErr.keyError
    ∧ Except.error PyErr.keyError ≠ (Except.ok Val.vNull : Except PyErr Val) :=
  ⟨by decide, by decide⟩

/-- C8 (amended): `get_title` and `get_overview` never raise on a mapping
record, and `get_runtime` degrades to its input on any conversion failure;
but `get_poster_url` raises KeyError on an image descriptor lacking
`coverType`, and `get_year` raises KeyError when `year` is present as a
string without a `yeat` key. -/
theorem extractors_degrade_amended :
    (∀ fs : List (String × Val),
       (∃ s, get_title (vDictOf fs) = Except.ok s)
       ∧ (∃ s, get_overview (vDictOf fs) = Except.ok s))
    ∧ (∀ v : Val, pyToInt v = none → get_runtime v = v)
    ∧ (∀ fs : List (String × Val), dictLookup (vDictOf fs) "coverType" = none →
        get_poster_url (vListOf [vDictOf fs]) = Except.error PyErr.keyError)
    ∧ (∀ (fs : List (String × Val)) (s : String),
        dictLookup (vDictOf fs) "year" = some (Val.vStr s) →
        dictLookup (vDictOf fs) "yeat" = none →
        get_year (vDictOf fs) = Except.error PyErr.keyError) := by
  refine ⟨?_, ?_, ?_, ?_⟩
  · intro fs
    constructor
    · cases h : dictLookup (vDictOf fs) "title" with
      | none => exact ⟨"No title found", by simp [get_title, pyContains_vDictOf, h, okBind]; rfl⟩
      | some t =>
          cases t <;>
            exact ⟨_, by simp [get_title, pyContains_vDictOf, pySub_vDictOf, h, okBind]; rfl⟩
    · cases h : dictLookup (vDictOf fs) "overview" with
      | none => exact ⟨"No overview found",
          by simp [get_overview, pyContains_vDictOf, h, okBind]; rfl⟩
      | some t =>
          cases t <;>
            exact ⟨_, by simp [get_overview, pyContains_vDictOf, pySub_vDictOf, h, okBind]; rfl⟩
  · intro v h
    rw [get_runtime, h]
  · intro fs h
    show (pyIter (vListOf [vDictOf fs]) >>= posterScan) = Except.error PyErr.keyError
    rw [pyIter_vListOf, okBind, posterScan]
    simp [pySub_vDictOf, h, errBind]
  · intro fs s hy hyt
    rw [get_year_reads_yeat fs s hy, pySub_vDictOf, hyt]

/-- Witness for the amended C8 theorem at concrete inputs. -/
theorem extractors_degrade_amended_witness :
    ((∃ s, get_title (vDictOf [("x", Val.vNull)]) = Except.ok s)
      ∧ (∃ s, get_overview (vDictOf [("x", Val.vNull)]) = Except.ok s))
    ∧ (pyToInt (Val.vStr "abc") = none ∧ get_runtime (Val.vStr "abc") = Val.vStr "abc")
    ∧ (dictLookup (vDictOf ([] : List (String × Val))) "coverType" = none
       ∧ get_poster_url (vListOf [vDictOf []]) = Except.error PyErr.keyError)
    ∧ (dictLookup (vDictOf [("year", Val.vStr "2020")]) "year" = some (Val.vStr "2020")
       ∧ dictLookup (vDictOf [("year", Val.vStr "2020")]) "yeat" = none
       ∧ get_year (vDictOf [("year", Val.vStr "2020")]) = Except.error PyErr.keyError) :=
  ⟨extractors_degrade_amended.1 [("x", Val.vNull)],
   ⟨by decide, extractors_degrade_amended.2.1 (Val.vStr "abc") (by decide)⟩,
   ⟨by decide, extractors_degrade_amended.2.2.1 [] (by decide)⟩,
   ⟨by decide, by decide,
    extractors_degrade_amended.2.2.2 [("year", Val.vStr "2020")] "2020" (by decide) (by decide)⟩⟩

theorem to_dict_fields (md : Media) :
    md.to_dict.map Prod.fst = mediaFieldNames
    ∧ ∀ p ∈ md.to_dict, isStrOrBool p.2 = true := by
  constructor
  · rfl
  · intro p hp
    simp only [Media.to_dict, List.mem_cons, List.not_mem_nil, or_false] at hp
    rcases hp with rfl | rfl | rfl | rfl | rfl | rfl | rfl <;> rfl

/-- C9: every raw record that normalizes successfully — library or
recommendation, movie or series — produces a Media dict carrying exactly
the seven canonical fields in order, each holding a string (placeholders
included) or the boolean `watched`: no output field is ever omitted or
null. -/
theorem normalized_media_all_fields :
    (∀ m md, radarr_movie_media m = Except.ok md →
       md.to_dict.map Prod.fst = mediaFieldNames ∧ ∀ p ∈ md.to_dict, isStrOrBool p.2 = true)
    ∧ (∀ m md, sonarr_series_media m = Except.ok md →
       md.to_dict.map Prod.fst = mediaFieldNames ∧ ∀ p ∈ md.to_dict, isStrOrBool p.2 = true)
    ∧ (∀ m md, reco_movie_media m = Except.ok md →
       md.to_dict.map Prod.fst = mediaFieldNames ∧ ∀ p ∈ md.to_dict, isStrOrBool p.2 = true)
    ∧ (∀ m md, reco_tv_media m = Except.ok md →
       md.to_dict.map Prod.fst = mediaFieldNames ∧ ∀ p ∈ md.to_dict, isStrOrBool p.2 = true) :=
  ⟨fun _ md _ => to_dict_fields md, fun _ md _ => to_dict_fields md,
   fun _ md _ => to_dict_fields md, fun _ md _ => to_dict_fields md⟩

/-- Witness for C9: the sample movie record normalizes successfully and
its dict satisfies the field invariants. -/
theorem normalized_media_all_fields_witness :
    radarr_movie_media sampleMovie = Except.ok sampleMovieMedia
    ∧ (sampleMovieMedia.to_dict.map Prod.fst = mediaFieldNames
       ∧ ∀ p ∈ sampleMovieMedia.to_dict, isStrOrBool p.2 = true) :=
  ⟨by decide, normalized_media_all_fields.1 sampleMovie sampleMovieMedia (by decide)⟩

